import Mathlib

set_option maxHeartbeats 1000000

/-!
Verification of the Analysis Orchestration Pipeline of the audynce FastAPI
service (app/main.py, app/services/ai_service.py, app/services/cache_service.py,
app/models/schemas.py, app/config/settings.py, app/utils/prompt_builder.py).

Python strings are modelled as lists of characters, fallible Python code as
`Option`/`Except`, and the process-dependent builtins (hash seeding, wall-clock
time, the HTTP provider, the MongoDB driver) as explicit parameters.
-/

/-- Python strings, modelled as lists of characters. -/
abbrev PyStr := List Char

/-- The opening brace character, by code point. -/
def lbrace : Char := Char.ofNat 123

/-- The closing brace character, by code point. -/
def rbrace : Char := Char.ofNat 125

/-- Whitespace recognised by Python str.split() with no arguments
(ASCII subset: space, tab, newline, carriage return, vertical tab, form feed). -/
def isPyWs (c : Char) : Bool :=
  c = ' ' || c = Char.ofNat 9 || c = Char.ofNat 10 || c = Char.ofNat 13 ||
  c = Char.ofNat 11 || c = Char.ofNat 12

/-- Helper for pySplit: the accumulator holds the current word reversed. -/
def pySplitAux : PyStr → PyStr → List PyStr
  | [], acc => if acc.isEmpty then [] else [acc.reverse]
  | c :: rest, acc =>
    if isPyWs c then
      if acc.isEmpty then pySplitAux rest [] else acc.reverse :: pySplitAux rest []
    else pySplitAux rest (c :: acc)

/-- Python prompt.split(): split on runs of whitespace, dropping leading and
trailing whitespace (used at app/services/ai_service.py line 27). -/
def pySplit (s : PyStr) : List PyStr := pySplitAux s []

/-- word_count = len(prompt.split()) (ai_service.py line 27). -/
def wordCount (prompt : PyStr) : Nat := (pySplit prompt).length

/-- MoodType enum (app/models/schemas.py lines 6-17). -/
inductive MoodType
  | UPBEAT | MELANCHOLIC | ROMANTIC | ADVENTUROUS | PEACEFUL | ENERGETIC
  | INTENSE | NOSTALGIC | DREAMY | CHILL | BALANCED
deriving DecidableEq

/-- MoodType(value): Python raises ValueError when value is not one of the
eleven member strings; modelled as none. -/
def moodOfStr (s : PyStr) : Option MoodType :=
  if s = ("UPBEAT".data) then some MoodType.UPBEAT
  else if s = ("MELANCHOLIC".data) then some MoodType.MELANCHOLIC
  else if s = ("ROMANTIC".data) then some MoodType.ROMANTIC
  else if s = ("ADVENTUROUS".data) then some MoodType.ADVENTUROUS
  else if s = ("PEACEFUL".data) then some MoodType.PEACEFUL
  else if s = ("ENERGETIC".data) then some MoodType.ENERGETIC
  else if s = ("INTENSE".data) then some MoodType.INTENSE
  else if s = ("NOSTALGIC".data) then some MoodType.NOSTALGIC
  else if s = ("DREAMY".data) then some MoodType.DREAMY
  else if s = ("CHILL".data) then some MoodType.CHILL
  else if s = ("BALANCED".data) then some MoodType.BALANCED
  else none

/-- AnalysisMode enum (schemas.py lines 19-21). -/
inductive AnalysisMode
  | STORY | DIRECT
deriving DecidableEq

/-- AnalysisRequest (schemas.py lines 23-26): prompt, selected_genres and
story_threshold only; the model declares no top_artists field. -/
structure AnalysisRequest where
  prompt : PyStr
  selected_genres : List PyStr
  story_threshold : Int
deriving DecidableEq

/-- SceneAnalysis (schemas.py lines 28-33). -/
structure SceneAnalysis where
  scene_number : Nat
  description : PyStr
  mood : MoodType
  suggested_genres : List PyStr
  energy_level : PyStr
deriving DecidableEq

/-- DirectModeAnalysis (schemas.py lines 35-39). -/
structure DirectModeAnalysis where
  mood : MoodType
  extracted_genres : List PyStr
  keywords : List PyStr
  theme : PyStr
deriving DecidableEq

/-- AIAnalysisResponse (schemas.py lines 41-45). -/
structure AIAnalysisResponse where
  analysis_id : PyStr
  mode : AnalysisMode
  scenes : Option (List SceneAnalysis) := none
  direct_analysis : Option DirectModeAnalysis := none
deriving DecidableEq

/-- settings.max_scenes (app/config/settings.py line 21, default value). -/
def max_scenes : Nat := 5

/-- Mode selection (ai_service.py lines 27-28):
STORY if word_count >= story_threshold else DIRECT. -/
def analyze_mode (prompt : PyStr) (story_threshold : Int) : AnalysisMode :=
  if (wordCount prompt : Int) ≥ story_threshold then AnalysisMode.STORY
  else AnalysisMode.DIRECT

/-- Python ",".join(xs). -/
def joinComma : List PyStr → PyStr
  | [] => []
  | [x] => x
  | x :: y :: rest => x ++ ',' :: joinComma (y :: rest)

/-- prompt_hash_str (app/main.py line 72): the prompt, the comma-joined
genres and the comma-joined artists, separated by colons. -/
def fingerprint_str (p : PyStr) (g a : List PyStr) : PyStr :=
  p ++ (':' :: (joinComma g ++ (':' :: joinComma a)))

/-- prompt_hash = str(hash(prompt_hash_str)) (main.py line 73). Python hash on
strings is process-seeded and external to the repository; it is modelled as a
parameter h applied to the fingerprint string. -/
def fingerprint (h : PyStr → Int) (p : PyStr) (g a : List PyStr) : PyStr :=
  (toString (h (fingerprint_str p g a))).data

/-- Python truthiness of a list or string: non-empty. -/
def pyTruthy (s : List Char) : Bool := !s.isEmpty

/-- _fallback_story_scenes (ai_service.py lines 197-222): three fixed scenes;
genre lists are selected_genres taken to three when non-empty, else a fixed
single genre per scene. -/
def fallback_story_scenes (_prompt : PyStr) (selected_genres : List PyStr) :
    List SceneAnalysis :=
  [⟨1, ("Opening - Setting the mood".data), MoodType.PEACEFUL,
      (if selected_genres.isEmpty then [("pop".data)] else selected_genres.take 3),
      ("low".data)⟩,
   ⟨2, ("Development - Building energy".data), MoodType.UPBEAT,
      (if selected_genres.isEmpty then [("pop".data)] else selected_genres.take 3),
      ("high".data)⟩,
   ⟨3, ("Resolution - Bringing it home".data), MoodType.NOSTALGIC,
      (if selected_genres.isEmpty then [("indie".data)] else selected_genres.take 3),
      ("medium".data)⟩]

/-- _fallback_direct_analysis (ai_service.py lines 224-232). -/
def fallback_direct_analysis (prompt : PyStr) (selected_genres : List PyStr) :
    DirectModeAnalysis :=
  ⟨MoodType.BALANCED,
   (if selected_genres.isEmpty then [("pop".data), ("indie".data)] else selected_genres),
   [("music".data), ("playlist".data)],
   (if prompt.isEmpty then ("General playlist".data) else prompt.take 50)⟩

/-- JSON values as produced by Python json.loads. Numbers keep their literal
characters: the repository never inspects numeric magnitudes, only shapes. -/
inductive JValue
  | null
  | bool (b : Bool)
  | num (lit : PyStr)
  | str (s : PyStr)
  | arr (elems : List JValue)
  | obj (fields : List (PyStr × JValue))

/-- Whitespace accepted between JSON tokens (RFC 8259, as in Python json). -/
def isJsonWs (c : Char) : Bool :=
  c = ' ' || c = Char.ofNat 9 || c = Char.ofNat 10 || c = Char.ofNat 13

/-- Drop leading JSON whitespace. -/
def skipWs : PyStr → PyStr
  | [] => []
  | c :: rest => if isJsonWs c then skipWs rest else c :: rest

/-- Value of one hexadecimal digit. -/
def hexVal (c : Char) : Option Nat :=
  if c.isDigit then some (c.toNat - 48)
  else if 'a' ≤ c && c ≤ 'f' then some (c.toNat - 87)
  else if 'A' ≤ c && c ≤ 'F' then some (c.toNat - 55)
  else none

/-- Single-character JSON string escapes. -/
def escChar (c : Char) : Option Char :=
  if c = '"' then some '"'
  else if c = '\\' then some '\\'
  else if c = '/' then some '/'
  else if c = 'b' then some (Char.ofNat 8)
  else if c = 'f' then some (Char.ofNat 12)
  else if c = 'n' then some (Char.ofNat 10)
  else if c = 'r' then some (Char.ofNat 13)
  else if c = 't' then some (Char.ofNat 9)
  else none

/-- Parse the body of a JSON string after the opening quote, returning the
decoded characters and the remaining input after the closing quote. A high
surrogate escape (code units 55296-56319) combines with an immediately
following low surrogate escape (56320-57343) into one astral code point, as in
the Python decoder. Python additionally permits a lone surrogate escape,
yielding a Python string containing an unpaired surrogate; such strings have
no representation as a list of Unicode scalar values, so the model rejects
exactly those escapes (see the C5 theorem, which is scoped accordingly). -/
def parseStringBody : Nat → PyStr → Option (PyStr × PyStr)
  | 0, _ => none
  | _ + 1, [] => none
  | fuel + 1, c :: rest =>
    if c = '"' then some ([], rest)
    else if c = '\\' then
      match rest with
      | [] => none
      | e :: rest2 =>
        if e = 'u' then
          match rest2 with
          | h1 :: h2 :: h3 :: h4 :: rest3 =>
            match hexVal h1, hexVal h2, hexVal h3, hexVal h4 with
            | some a, some b, some c2, some d =>
              let n := ((a * 16 + b) * 16 + c2) * 16 + d
              if 55296 ≤ n && n ≤ 56319 then
                match rest3 with
                | e1 :: e2 :: h5 :: h6 :: h7 :: h8 :: rest4 =>
                  if e1 = '\\' && e2 = 'u' then
                    match hexVal h5, hexVal h6, hexVal h7, hexVal h8 with
                    | some a2, some b2, some c3, some d2 =>
                      let n2 := ((a2 * 16 + b2) * 16 + c3) * 16 + d2
                      if 56320 ≤ n2 && n2 ≤ 57343 then
                        let comb := 65536 + (n - 55296) * 1024 + (n2 - 56320)
                        match parseStringBody fuel rest4 with
                        | some (s, rem) => some (Char.ofNat comb :: s, rem)
                        | none => none
                      else none
                    | _, _, _, _ => none
                  else none
                | _ => none
              else if n.isValidChar then
                match parseStringBody fuel rest3 with
                | some (s, rem) => some (Char.ofNat n :: s, rem)
                | none => none
              else none
            | _, _, _, _ => none
          | _ => none
        else
          match escChar e with
          | some ec =>
            match parseStringBody fuel rest2 with
            | some (s, rem) => some (ec :: s, rem)
            | none => none
          | none => none
    else if c.toNat < 32 then none
    else
      match parseStringBody fuel rest with
      | some (s, rem) => some (c :: s, rem)
      | none => none

/-- Integer part of a JSON number: a single 0, or a nonzero digit followed by
digits (matching the tokenizer regex used by Python json). -/
def parseIntDigits : PyStr → Option (PyStr × PyStr)
  | [] => none
  | c :: rest =>
    if c = '0' then some (['0'], rest)
    else if c.isDigit then
      match List.span Char.isDigit rest with
      | (ds, rem) => some (c :: ds, rem)
    else none

/-- Optional fraction part of a JSON number; consumes nothing if absent or
malformed (the tokenizer regex simply matches less). -/
def parseFrac (s : PyStr) : PyStr × PyStr :=
  match s with
  | c :: rest =>
    if c = '.' then
      match List.span Char.isDigit rest with
      | ([], _) => ([], s)
      | (ds, rem) => ('.' :: ds, rem)
    else ([], s)
  | [] => ([], s)

/-- Optional exponent part of a JSON number. -/
def parseExp (s : PyStr) : PyStr × PyStr :=
  match s with
  | c :: rest =>
    if c = 'e' || c = 'E' then
      match rest with
      | c2 :: rest2 =>
        if c2 = '+' || c2 = '-' then
          match List.span Char.isDigit rest2 with
          | ([], _) => ([], s)
          | (ds, rem) => (c :: c2 :: ds, rem)
        else
          match List.span Char.isDigit rest with
          | ([], _) => ([], s)
          | (ds, rem) => (c :: ds, rem)
      | [] => ([], s)
    else ([], s)
  | [] => ([], s)

/-- A JSON number literal: optional minus, integer part, optional fraction and
exponent. Returns the consumed characters and the rest. -/
def parseNumber (s : PyStr) : Option (PyStr × PyStr) :=
  match s with
  | [] => none
  | c :: rest =>
    if c = '-' then
      match parseIntDigits rest with
      | none => none
      | some (ds, rem) =>
        match parseFrac rem with
        | (fs, rem2) =>
          match parseExp rem2 with
          | (es, rem3) => some ('-' :: (ds ++ fs ++ es), rem3)
    else
      match parseIntDigits s with
      | none => none
      | some (ds, rem) =>
        match parseFrac rem with
        | (fs, rem2) =>
          match parseExp rem2 with
          | (es, rem3) => some (ds ++ fs ++ es, rem3)

/-- Consume an expected literal character sequence. -/
def dropLit : PyStr → PyStr → Option PyStr
  | [], s => some s
  | _ :: _, [] => none
  | c :: pre, d :: s => if c = d then dropLit pre s else none

mutual

/-- Recursive-descent JSON value parser (models Python json.loads scanning),
with a fuel argument for termination. Besides the RFC grammar it accepts the
NaN, Infinity and -Infinity constants that Python json accepts by default
(parse_constant); like all other numbers they are kept as their literal
characters, since the repository only ever inspects value shapes. -/
def parseValue : Nat → PyStr → Option (JValue × PyStr)
  | 0, _ => none
  | fuel + 1, s =>
    match skipWs s with
    | [] => none
    | c :: rest =>
      if c = '"' then
        match parseStringBody (rest.length + 1) rest with
        | some (str, rem) => some (JValue.str str, rem)
        | none => none
      else if c = lbrace then parseObjStart fuel rest
      else if c = '[' then parseArrStart fuel rest
      else if c = 't' then
        match dropLit ("rue".data) rest with
        | some rem => some (JValue.bool true, rem)
        | none => none
      else if c = 'f' then
        match dropLit ("alse".data) rest with
        | some rem => some (JValue.bool false, rem)
        | none => none
      else if c = 'n' then
        match dropLit ("ull".data) rest with
        | some rem => some (JValue.null, rem)
        | none => none
      else if c = 'N' then
        match dropLit ("aN".data) rest with
        | some rem => some (JValue.num ("NaN".data), rem)
        | none => none
      else if c = 'I' then
        match dropLit ("nfinity".data) rest with
        | some rem => some (JValue.num ("Infinity".data), rem)
        | none => none
      else
        match parseNumber (c :: rest) with
        | some (lit, rem) => some (JValue.num lit, rem)
        | none =>
          if c = '-' then
            match dropLit ("Infinity".data) rest with
            | some rem => some (JValue.num ("-Infinity".data), rem)
            | none => none
          else none

/-- Parse an object after the opening brace. -/
def parseObjStart : Nat → PyStr → Option (JValue × PyStr)
  | 0, _ => none
  | fuel + 1, s =>
    match skipWs s with
    | [] => none
    | c :: rest =>
      if c = rbrace then some (JValue.obj [], rest)
      else
        match parseMembers fuel (c :: rest) with
        | some (fs, rem) => some (JValue.obj fs, rem)
        | none => none

/-- Parse one or more key-value members of an object. -/
def parseMembers : Nat → PyStr → Option (List (PyStr × JValue) × PyStr)
  | 0, _ => none
  | fuel + 1, s =>
    match skipWs s with
    | [] => none
    | c :: rest =>
      if c = '"' then
        match parseStringBody (rest.length + 1) rest with
        | none => none
        | some (key, rem) =>
          match skipWs rem with
          | [] => none
          | c2 :: rem2 =>
            if c2 = ':' then
              match parseValue fuel rem2 with
              | none => none
              | some (v, rem3) =>
                match skipWs rem3 with
                | [] => none
                | c3 :: rem4 =>
                  if c3 = ',' then
                    match parseMembers fuel rem4 with
                    | some (fs, rem5) => some ((key, v) :: fs, rem5)
                    | none => none
                  else if c3 = rbrace then some ([(key, v)], rem4)
                  else none
            else none
      else none

/-- Parse an array after the opening bracket. -/
def parseArrStart : Nat → PyStr → Option (JValue × PyStr)
  | 0, _ => none
  | fuel + 1, s =>
    match skipWs s with
    | [] => none
    | c :: rest =>
      if c = ']' then some (JValue.arr [], rest)
      else
        match parseElems fuel (c :: rest) with
        | some (vs, rem) => some (JValue.arr vs, rem)
        | none => none

/-- Parse one or more array elements. -/
def parseElems : Nat → PyStr → Option (List JValue × PyStr)
  | 0, _ => none
  | fuel + 1, s =>
    match parseValue fuel s with
    | none => none
    | some (v, rem) =>
      match skipWs rem with
      | [] => none
      | c :: rem2 =>
        if c = ',' then
          match parseElems fuel rem2 with
          | some (vs, rem3) => some (v :: vs, rem3)
          | none => none
        else if c = ']' then some ([v], rem2)
        else none

end

/-- Python json.loads: parse one JSON value and require that only whitespace
follows it. Matches the default loads configuration, including the NaN,
Infinity and -Infinity constants and surrogate-pair string escapes; the single
deliberate divergence is the lone surrogate escape, whose Python result is a
string no list of Unicode scalar values can hold (see parseStringBody). -/
def json_loads (s : PyStr) : Option JValue :=
  match parseValue (4 * s.length + 16) s with
  | some (v, rest) => if skipWs rest = [] then some v else none
  | none => none

/-- Python str.find for a single character: index of the first occurrence. -/
def findChar (c : Char) : PyStr → Option Nat
  | [] => none
  | x :: xs => if x = c then some 0 else (findChar c xs).map (fun i => i + 1)

/-- Python str.rfind for a single character: index of the last occurrence. -/
def rfindChar (c : Char) (s : PyStr) : Option Nat :=
  (findChar c s.reverse).map (fun i => s.length - 1 - i)

/-- The candidate JSON substring, ai_service.py lines 145-149 and 176-180:
from the first opening brace to the last closing brace inclusive; none when
either is missing or the last closing brace precedes the first opening one. -/
def extract_candidate (s : PyStr) : Option PyStr :=
  match findChar lbrace s, rfindChar rbrace s with
  | some i, some j => if i < j + 1 then some ((s.drop i).take (j + 1 - i)) else none
  | _, _ => none

/-- Python dict lookup after json.loads: with duplicate keys the last
occurrence wins, as in the dict built by the Python scanner. -/
def objGet (fields : List (PyStr × JValue)) (k : PyStr) : Option JValue :=
  match fields with
  | [] => none
  | (k2, v) :: rest =>
    match objGet rest k with
    | some r => some r
    | none => if k2 = k then some v else none

/-- Pydantic validation of a List[str] field: every element must be a JSON
string (pydantic v2 performs no int-to-str coercion). -/
def strList (xs : List JValue) : Option (List PyStr) :=
  match xs with
  | [] => some []
  | JValue.str s :: rest =>
    match strList rest with
    | some ss => some (s :: ss)
    | none => none
  | _ :: _ => none

/-- Decimal rendering of a natural number as Python characters. -/
def natToStr (n : Nat) : PyStr := (toString n).data

/-- The default description f"Scene {i}" (ai_service.py line 156). -/
def sceneLabel (i : Nat) : PyStr := ("Scene ".data) ++ natToStr i

/-- scene_data.get("description", f"Scene {i}") followed by pydantic str
validation: absent key defaults, a non-string value fails the whole parse. -/
def sceneDesc (i : Nat) (fields : List (PyStr × JValue)) : Option PyStr :=
  match objGet fields ("description".data) with
  | none => some (sceneLabel i)
  | some (JValue.str s) => some s
  | some _ => none

/-- MoodType(scene_data.get("mood", "BALANCED")) (ai_service.py line 157):
absent key defaults to the BALANCED member; a value that is not a known mood
string raises ValueError, failing the whole parse. -/
def sceneMood (fields : List (PyStr × JValue)) : Option MoodType :=
  match objGet fields ("mood".data) with
  | none => moodOfStr ("BALANCED".data)
  | some (JValue.str s) => moodOfStr s
  | some _ => none

/-- scene_data.get("genres", selected_genres[:3]) (ai_service.py line 158):
absent key defaults to the first three selected genres. -/
def sceneGenres (selected : List PyStr) (fields : List (PyStr × JValue)) :
    Option (List PyStr) :=
  match objGet fields ("genres".data) with
  | none => some (selected.take 3)
  | some (JValue.arr xs) => strList xs
  | some _ => none

/-- scene_data.get("energy", "medium") (ai_service.py line 159). -/
def sceneEnergy (fields : List (PyStr × JValue)) : Option PyStr :=
  match objGet fields ("energy".data) with
  | none => some ("medium".data)
  | some (JValue.str s) => some s
  | some _ => none

/-- Build one SceneAnalysis from the i-th element of the scenes array
(ai_service.py lines 154-160). An element that is not an object raises
AttributeError at .get, failing the whole parse. -/
def mkScene (i : Nat) (v : JValue) (selected : List PyStr) :
    Option SceneAnalysis :=
  match v with
  | JValue.obj fields =>
    match sceneDesc i fields with
    | none => none
    | some d =>
      match sceneMood fields with
      | none => none
      | some m =>
        match sceneGenres selected fields with
        | none => none
        | some gs =>
          match sceneEnergy fields with
          | none => none
          | some e => some ⟨i, d, m, gs, e⟩
  | _ => none

/-- The enumerate(..., 1) loop of ai_service.py line 153: scenes are numbered
from the given start index; the first failing element aborts everything. -/
def buildScenes (selected : List PyStr) : Nat → List JValue →
    Option (List SceneAnalysis)
  | _, [] => some []
  | i, v :: vs =>
    match mkScene i v selected with
    | none => none
    | some s =>
      match buildScenes selected (i + 1) vs with
      | some rest => some (s :: rest)
      | none => none

/-- Scene extraction from the decoded JSON value (ai_service.py lines 152-163):
data.get("scenes", []) must be a non-empty array (a missing key yields the
empty default and hence no scenes; a non-array value raises while being sliced
or iterated); at most max_scenes elements are taken, in order. -/
def scenesOfData (selected : List PyStr) (data : JValue) :
    Option (List SceneAnalysis) :=
  match data with
  | JValue.obj fields =>
    match objGet fields ("scenes".data) with
    | some (JValue.arr xs) =>
      match buildScenes selected 1 (xs.take max_scenes) with
      | some l => if l.isEmpty then none else some l
      | none => none
    | some _ => none
    | none => none
  | _ => none

/-- The failing-free core of _parse_story_response (ai_service.py lines
141-163): candidate extraction, json.loads, scene building. none models every
path that falls through to the fallback (no JSON found, decode error, or any
exception while building scenes, or an empty scene list). -/
def storyParseCore (response : PyStr) (selected : List PyStr) :
    Option (List SceneAnalysis) :=
  match extract_candidate response with
  | none => none
  | some c =>
    match json_loads c with
    | none => none
    | some data => scenesOfData selected data

/-- _parse_story_response (ai_service.py lines 141-170): on any failure the
function returns _fallback_story_scenes("", selected_genres). -/
def parse_story_response (response : PyStr) (selected : List PyStr) :
    List SceneAnalysis :=
  match storyParseCore response selected with
  | some l => l
  | none => fallback_story_scenes [] selected

/-- data.get("mood", "BALANCED") for direct mode (ai_service.py line 184). -/
def directMood (fields : List (PyStr × JValue)) : Option MoodType :=
  match objGet fields ("mood".data) with
  | none => moodOfStr ("BALANCED".data)
  | some (JValue.str s) => moodOfStr s
  | some _ => none

/-- data.get("genres", selected_genres) (ai_service.py line 185): the direct
default is the whole selected list, not a three-element slice. -/
def directGenres (selected : List PyStr) (fields : List (PyStr × JValue)) :
    Option (List PyStr) :=
  match objGet fields ("genres".data) with
  | none => some selected
  | some (JValue.arr xs) => strList xs
  | some _ => none

/-- data.get("keywords", []) (ai_service.py line 186). -/
def directKeywords (fields : List (PyStr × JValue)) : Option (List PyStr) :=
  match objGet fields ("keywords".data) with
  | none => some []
  | some (JValue.arr xs) => strList xs
  | some _ => none

/-- data.get("theme", "Music playlist") (ai_service.py line 187). -/
def directTheme (fields : List (PyStr × JValue)) : Option PyStr :=
  match objGet fields ("theme".data) with
  | none => some ("Music playlist".data)
  | some (JValue.str s) => some s
  | some _ => none

/-- The failing-free core of _parse_direct_response (ai_service.py lines
172-188). -/
def directParseCore (response : PyStr) (selected : List PyStr) :
    Option DirectModeAnalysis :=
  match extract_candidate response with
  | none => none
  | some c =>
    match json_loads c with
    | none => none
    | some (JValue.obj fields) =>
      match directMood fields with
      | none => none
      | some m =>
        match directGenres selected fields with
        | none => none
        | some gs =>
          match directKeywords fields with
          | none => none
          | some ks =>
            match directTheme fields with
            | none => none
            | some th => some ⟨m, gs, ks, th⟩
    | some _ => none

/-- _parse_direct_response (ai_service.py lines 172-195): on any failure the
function returns _fallback_direct_analysis("", selected_genres) - note the
empty first argument. -/
def parse_direct_response (response : PyStr) (selected : List PyStr) :
    DirectModeAnalysis :=
  match directParseCore response selected with
  | some d => d
  | none => fallback_direct_analysis [] selected

/-- Python exceptions relevant to the pipeline. -/
inductive PyErr
  | attributeError
  | typeError
  | nameError
  | providerError
deriving DecidableEq

/-- Python ", ".join(xs). -/
def joinCommaSpace : List PyStr → PyStr
  | [] => []
  | [x] => x
  | x :: y :: rest => x ++ ',' :: ' ' :: joinCommaSpace (y :: rest)

/-- genre_str = ", ".join(genres) if genres else "various genres"
(prompt_builder.py line 6). -/
def story_genre_str (genres : List PyStr) : PyStr :=
  if genres.isEmpty then ("various genres".data) else joinCommaSpace genres

/-- Story template text before the narrative (prompt_builder.py line 8). -/
def storyTemplate1 : PyStr :=
  ("Analyze this story and break it down into 3-6 musical scenes. For each scene, identify the mood and suggest music that would match.\n\nStory: ").data

/-- Story template text between the narrative and the genre list. -/
def storyTemplate2 : PyStr := ("\n\nPreferred genres: ").data

/-- Story template text after the genre list (the doubled braces of the Python
f-string render as single braces). -/
def storyTemplate3 : PyStr :=
  ("\n\nRespond ONLY with valid JSON in this exact format:\n\x7b\n  \"scenes\": [\n    \x7b\n      \"description\": \"brief scene description\",\n      \"mood\": \"UPBEAT|MELANCHOLIC|ROMANTIC|ADVENTUROUS|PEACEFUL|ENERGETIC|INTENSE|NOSTALGIC|DREAMY|CHILL|BALANCED\",\n      \"genres\": [\"genre1\", \"genre2\"],\n      \"energy\": \"high|medium|low\"\n    \x7d\n  ]\n\x7d\n\nRules:\n- Maximum 6 scenes\n- Mood must be ONE of the listed options in CAPS\n- Keep descriptions under 100 characters\n- **Match genres to the scene mood and User's preferred genres.**").data

/-- build_story_prompt (prompt_builder.py lines 4-30): pure interpolation of
the narrative and the joined genres into a fixed template. -/
def build_story_prompt (narrative : PyStr) (genres : List PyStr)
    (_top_artists : List PyStr) : PyStr :=
  storyTemplate1 ++ narrative ++ storyTemplate2 ++ story_genre_str genres ++
    storyTemplate3

/-- build_direct_prompt (prompt_builder.py lines 32-54): its f-string template
interpolates personalization_str, a name defined nowhere in the module, so
every call raises NameError before any text is produced. -/
def build_direct_prompt (_prompt : PyStr) (_genres : List PyStr)
    (_top_artists : List PyStr) : Except PyErr PyStr :=
  Except.error PyErr.nameError

/-- The call build_story_prompt(prompt, selected_genres) at ai_service.py line
51: two positional arguments for a three-parameter function raise TypeError
before the function body runs. -/
def build_story_prompt_call2 (_prompt : PyStr) (_genres : List PyStr) :
    Except PyErr PyStr :=
  Except.error PyErr.typeError

/-- The call build_direct_prompt(prompt, selected_genres) at ai_service.py line
61: same two-for-three positional argument mismatch, TypeError. -/
def build_direct_prompt_call2 (_prompt : PyStr) (_genres : List PyStr) :
    Except PyErr PyStr :=
  Except.error PyErr.typeError

/-- _analyze_story (ai_service.py lines 49-57): the prompt is built outside the
try block, so an exception there propagates; inside the try a provider failure
selects the fallback with the original prompt. hf models _call_huggingface. -/
def analyze_story_m (hf : PyStr → Except PyErr PyStr) (prompt : PyStr)
    (selected : List PyStr) : Except PyErr (List SceneAnalysis) :=
  match build_story_prompt_call2 prompt selected with
  | Except.error e => Except.error e
  | Except.ok system_prompt =>
    match hf system_prompt with
    | Except.error _ => Except.ok (fallback_story_scenes prompt selected)
    | Except.ok response => Except.ok (parse_story_response response selected)

/-- _analyze_direct (ai_service.py lines 59-67), same shape as the story arm. -/
def analyze_direct_m (hf : PyStr → Except PyErr PyStr) (prompt : PyStr)
    (selected : List PyStr) : Except PyErr DirectModeAnalysis :=
  match build_direct_prompt_call2 prompt selected with
  | Except.error e => Except.error e
  | Except.ok system_prompt =>
    match hf system_prompt with
    | Except.error _ => Except.ok (fallback_direct_analysis prompt selected)
    | Except.ok response => Except.ok (parse_direct_response response selected)

/-- analyze_prompt (ai_service.py lines 25-47). The analysis_id interpolates
hash(prompt) and time.time(), both process-dependent, modelled by the
parameters ph and now. -/
def analyze_prompt_m (hf : PyStr → Except PyErr PyStr) (ph : PyStr → Int)
    (now : Int) (prompt : PyStr) (selected : List PyStr)
    (story_threshold : Int) : Except PyErr AIAnalysisResponse :=
  let mode := analyze_mode prompt story_threshold
  let analysis_id :=
    ("ai-".data) ++ (toString (ph prompt)).data ++ ('-' :: (toString now).data)
  match mode with
  | AnalysisMode.STORY =>
    match analyze_story_m hf prompt selected with
    | Except.error e => Except.error e
    | Except.ok scenes => Except.ok ⟨analysis_id, mode, some scenes, none⟩
  | AnalysisMode.DIRECT =>
    match analyze_direct_m hf prompt selected with
    | Except.error e => Except.error e
    | Except.ok d => Except.ok ⟨analysis_id, mode, none, some d⟩

/-- Errors raised by the MongoDB driver, absorbed by CacheService. -/
inductive OpErr
  | opFailed
deriving DecidableEq

/-- A cached analysis document; AIAnalysisResponse(**cached) rebuilds the
response (pydantic ignores the extra Mongo bookkeeping fields). -/
abbrev CacheDoc := AIAnalysisResponse

/-- The Mongo collection handle, modelled by the behavior of the two
operations CacheService uses. -/
structure Collection where
  find_one : PyStr → Except OpErr (Option CacheDoc)
  update_one : PyStr → CacheDoc → Except OpErr Unit

/-- CacheService.get_cached_analysis (cache_service.py lines 31-41): None when
no connection was established (collection is None) and None when find_one
raises. -/
def get_cached_analysis (collection : Option Collection) (prompt_hash : PyStr) :
    Option CacheDoc :=
  match collection with
  | none => none
  | some coll =>
    match coll.find_one prompt_hash with
    | Except.ok r => r
    | Except.error _ => none

/-- CacheService.cache_analysis (cache_service.py lines 43-56): returns the
upserted key-document pair, or none when no write happened (no connection, or
update_one raised). The stored cached_at timestamp is external wall-clock
state and not part of the returned value. -/
def cache_analysis (collection : Option Collection) (prompt_hash : PyStr)
    (analysis : CacheDoc) : Option (PyStr × CacheDoc) :=
  match collection with
  | none => none
  | some coll =>
    match coll.update_one prompt_hash analysis with
    | Except.ok _ => some (prompt_hash, analysis)
    | Except.error _ => none

/-- What the POST /ai/analyze caller receives. -/
inductive EndpointResult
  | ok (r : AIAnalysisResponse)
  | httpError (code : Nat)
deriving DecidableEq

/-- request.top_artists at main.py line 72: AnalysisRequest declares prompt,
selected_genres and story_threshold only (schemas.py lines 23-26), so this
attribute access raises AttributeError. -/
def req_top_artists (_req : AnalysisRequest) : Except PyErr (List PyStr) :=
  Except.error PyErr.attributeError

/-- The call ai_service.analyze_prompt(prompt, selected_genres,
story_threshold, top_artists) at main.py lines 81-86: four positional
arguments for a three-parameter method raise TypeError before the method body
runs. -/
def analyze_prompt_call4 (_hf : PyStr → Except PyErr PyStr) (_ph : PyStr → Int)
    (_now : Int) (_prompt : PyStr) (_selected : List PyStr) (_t : Int)
    (_artists : List PyStr) : Except PyErr AIAnalysisResponse :=
  Except.error PyErr.typeError

/-- The POST /ai/analyze handler analyze_story (main.py lines 62-95): builds
the fingerprint, consults the cache, analyzes on a miss, stores the result;
every exception is converted to HTTPException(status_code=500). -/
def analyze_story_endpoint (hf : PyStr → Except PyErr PyStr) (ph : PyStr → Int)
    (now : Int) (collection : Option Collection) (req : AnalysisRequest) :
    EndpointResult :=
  match
    (match req_top_artists req with
     | Except.error e => Except.error e
     | Except.ok artists =>
       let prompt_hash := fingerprint ph req.prompt req.selected_genres artists
       match get_cached_analysis collection prompt_hash with
       | some cached => Except.ok cached
       | none =>
         match analyze_prompt_call4 hf ph now req.prompt req.selected_genres
             req.story_threshold artists with
         | Except.error e => Except.error e
         | Except.ok analysis =>
           let _write := cache_analysis collection prompt_hash analysis
           Except.ok analysis) with
  | Except.ok r => EndpointResult.ok r
  | Except.error _ => EndpointResult.httpError 500

/-- A string with neither brace character, the shape of prose the first-brace
to last-brace extraction can tolerate around an embedded object. -/
def braceFreeB (s : PyStr) : Bool :=
  s.all (fun c => decide (c ≠ lbrace) && decide (c ≠ rbrace))

/-- No occurrence of the character pattern backslash, u, d or D, then a hex
digit of value at least 8 - the textual shape of a UTF-16 surrogate escape.
This over-approximates: a text containing the pattern outside an escape
position is also excluded. On texts satisfying this test the modelled decoder
agrees exactly with Python json.loads; on a lone surrogate escape Python
builds a string containing an unpaired surrogate, which a list of Unicode
scalar values cannot represent, and the model fails instead. -/
def surrEscFreeB : PyStr → Bool
  | '\\' :: 'u' :: c1 :: c2 :: rest =>
    if (c1 = 'd' || c1 = 'D') &&
        (match hexVal c2 with | some n => decide (8 ≤ n) | none => false) then
      false
    else surrEscFreeB ('u' :: c1 :: c2 :: rest)
  | _ :: rest => surrEscFreeB rest
  | [] => true

/-- A string without the colon used as the fingerprint field separator. -/
def colonFreeB (s : PyStr) : Bool := s.all (fun c => decide (c ≠ ':'))

/-- Genre or artist entries that are non-empty and avoid both separator
characters of the fingerprint encoding. -/
def keyEntryOkB (l : List PyStr) : Bool :=
  l.all (fun x => (!x.isEmpty) && x.all (fun c => decide (c ≠ ':') && decide (c ≠ ',')))

/-- A one-genre selection used by concrete evaluations. -/
def gRock : List PyStr := [("rock".data)]

/-- A two-genre selection used by concrete evaluations. -/
def gTwo : List PyStr := [("rock".data), ("pop".data)]

/-- A provider reply whose one scene is an empty object. -/
def textEmptyScene : PyStr := ("\x7b\"scenes\": [\x7b\x7d]\x7d").data

/-- A provider reply whose one scene carries a mood outside the MoodType set. -/
def textUnknownMood : PyStr :=
  ("\x7b\"scenes\": [\x7b\"description\": \"x\", \"mood\": \"HAPPY\"\x7d]\x7d").data

/-- The same scene with the mood field absent. -/
def textMoodAbsent : PyStr :=
  ("\x7b\"scenes\": [\x7b\"description\": \"x\"\x7d]\x7d").data

/-- A provider reply that is just an empty JSON object. -/
def textEmptyObj : PyStr := ("\x7b\x7d").data

/-- A five-word prompt, as in scenario A of the specification. -/
def promptFive : PyStr := ("play soft piano for studying").data

/-- Brace-free prose before an embedded JSON object. -/
def wPre : PyStr := ("Sure! Here is the JSON you asked for: ").data

/-- A small JSON object as raw text, exercising the NaN constant and a
surrogate-pair escape that Python json accepts. -/
def wObj : PyStr := ("\x7b\"a\": NaN, \"b\": \"\\ud83d\\ude00\"\x7d").data

/-- Brace-free prose after an embedded JSON object. -/
def wPost : PyStr := (" hope it helps.").data

/-- The decoded value of wObj: the NaN literal and the astral code point
128512 combined from the surrogate pair. -/
def wVal : JValue :=
  JValue.obj [(("a").data, JValue.num (("NaN").data)),
              (("b").data, JValue.str [Char.ofNat 128512])]

/-- A reply without any brace. -/
def wNoBrace : PyStr := ("no braces in this reply at all").data

/-- A brace-delimited substring that is not well-formed JSON. -/
def wBadObj : PyStr := ("\x7bnot valid json\x7d").data

/-- A collection handle whose store refuses every operation. -/
def collDown : Collection :=
  ⟨fun _ => Except.error OpErr.opFailed, fun _ _ => Except.error OpErr.opFailed⟩

/-- A concrete cached document. -/
def docW : CacheDoc :=
  ⟨("id".data), AnalysisMode.DIRECT, none, some (fallback_direct_analysis [] [])⟩

/-- Scene fields carrying only a description. -/
def fieldsW : List (PyStr × JValue) := [(("description".data), JValue.str ("x".data))]

/-- The scene the parser builds from fieldsW at index 2 with gTwo selected. -/
def sceneW : SceneAnalysis :=
  ⟨2, ("x".data), MoodType.BALANCED, [("rock".data), ("pop".data)], ("medium".data)⟩

/-- Unfolding of the brace-freedom test into the two membership facts. -/
theorem braceFree_spec (s : PyStr) (h : braceFreeB s = true) :
    lbrace ∉ s ∧ rbrace ∉ s := by
  simp only [braceFreeB, List.all_eq_true, Bool.and_eq_true, decide_eq_true_eq] at h
  exact ⟨fun hm => (h _ hm).1 rfl, fun hm => (h _ hm).2 rfl⟩

/-- Unfolding of the colon-freedom test. -/
theorem colonFree_spec (s : PyStr) (h : colonFreeB s = true) : ':' ∉ s := by
  simp only [colonFreeB, List.all_eq_true, decide_eq_true_eq] at h
  exact fun hm => h _ hm rfl

/-- Unfolding of the entry well-formedness test. -/
theorem keyEntryOk_spec (l : List PyStr) (h : keyEntryOkB l = true) :
    ∀ x ∈ l, x ≠ [] ∧ ':' ∉ x ∧ ',' ∉ x := by
  simp only [keyEntryOkB, List.all_eq_true, Bool.and_eq_true, decide_eq_true_eq,
    Bool.not_eq_true'] at h
  intro x hx
  obtain ⟨hne, hall⟩ := h x hx
  refine ⟨?_, fun hm => (hall _ hm).1 rfl, fun hm => (hall _ hm).2 rfl⟩
  intro hnil
  subst hnil
  simp at hne

/-- The searched character at the head is found at index zero. -/
theorem findChar_cons_self (c : Char) (xs : PyStr) : findChar c (c :: xs) = some 0 := by
  simp [findChar]

/-- findChar fails exactly on strings not containing the character. -/
theorem findChar_eq_none (c : Char) (s : PyStr) : findChar c s = none ↔ c ∉ s := by
  induction s with
  | nil => simp [findChar]
  | cons x xs ih =>
    by_cases hx : x = c
    · subst hx; simp [findChar]
    · simp [findChar, hx, Option.map_eq_none', ih, Ne.symm hx]

/-- Searching past a block that lacks the character shifts the index. -/
theorem findChar_append_of_not_mem (c : Char) (l1 l2 : PyStr) (h : c ∉ l1) :
    findChar c (l1 ++ l2) = (findChar c l2).map (fun i => i + l1.length) := by
  induction l1 with
  | nil => cases hf : findChar c l2 <;> simp [hf]
  | cons x xs ih =>
    have hx : ¬ x = c := by rintro rfl; exact h (List.mem_cons_self x xs)
    have h2 : c ∉ xs := fun hm => h (List.mem_cons_of_mem x hm)
    cases hf : findChar c l2
    · simp [findChar, hx, ih h2, hf]
    · simp [findChar, hx, ih h2, hf]
      omega

/-- A brace-delimited block surrounded by brace-free text is exactly what the
first-brace to last-brace extraction recovers. -/
theorem extract_embedded (pre s post : PyStr)
    (hpre : braceFreeB pre = true) (hpost : braceFreeB post = true)
    (hhead : s.head? = some lbrace) (hlast : s.getLast? = some rbrace) :
    extract_candidate (pre ++ s ++ post) = some s := by
  obtain ⟨hpreL, hpreR⟩ := braceFree_spec pre hpre
  obtain ⟨hpostL, hpostR⟩ := braceFree_spec post hpost
  obtain ⟨s1, rfl⟩ : ∃ t, s = lbrace :: t := by
    cases s with
    | nil => simp at hhead
    | cons a t =>
      simp only [List.head?_cons, Option.some.injEq] at hhead
      exact ⟨t, by rw [hhead]⟩
  obtain ⟨r, hrev⟩ : ∃ r, (lbrace :: s1).reverse = rbrace :: r := by
    have hh : (lbrace :: s1).reverse.head? = some rbrace := by
      rw [List.head?_reverse]; exact hlast
    cases hrv : (lbrace :: s1).reverse with
    | nil => rw [hrv] at hh; simp at hh
    | cons b bs =>
      rw [hrv] at hh
      simp only [List.head?_cons, Option.some.injEq] at hh
      exact ⟨bs, by rw [hh]⟩
  have hfind : findChar lbrace (pre ++ (lbrace :: s1) ++ post) = some pre.length := by
    rw [List.append_assoc, findChar_append_of_not_mem _ _ _ hpreL]
    simp [findChar]
  have hrfind : rfindChar rbrace (pre ++ (lbrace :: s1) ++ post) =
      some (pre.length + (lbrace :: s1).length - 1) := by
    unfold rfindChar
    have hrw : (pre ++ (lbrace :: s1) ++ post).reverse
        = post.reverse ++ ((lbrace :: s1).reverse ++ pre.reverse) := by
      simp [List.reverse_append]
    have hstep : (lbrace :: s1).reverse ++ pre.reverse = rbrace :: (r ++ pre.reverse) := by
      rw [hrev, List.cons_append]
    rw [hrw, findChar_append_of_not_mem _ _ _ (by simpa using hpostR), hstep,
      findChar_cons_self]
    simp only [Option.map_some', List.length_append, List.length_reverse,
      List.length_cons, Option.some.injEq]
    omega
  unfold extract_candidate
  simp only [hfind, hrfind]
  have hlen : pre.length < pre.length + (lbrace :: s1).length - 1 + 1 := by
    simp only [List.length_cons]; omega
  rw [if_pos hlen]
  have hidx : pre.length + (lbrace :: s1).length - 1 + 1 - pre.length
      = (lbrace :: s1).length := by
    simp only [List.length_cons]; omega
  rw [List.append_assoc, List.drop_left, hidx, List.take_left]

/-- The built scene always carries the enumeration index it was given. -/
theorem mkScene_number (i : Nat) (v : JValue) (g : List PyStr) (s : SceneAnalysis)
    (h : mkScene i v g = some s) : s.scene_number = i := by
  cases v with
  | obj fields =>
    simp only [mkScene] at h
    cases hd : sceneDesc i fields <;> rw [hd] at h
    · exact absurd h (by simp)
    · cases hm : sceneMood fields <;> rw [hm] at h
      · exact absurd h (by simp)
      · cases hg : sceneGenres g fields <;> rw [hg] at h
        · exact absurd h (by simp)
        · cases he : sceneEnergy fields <;> rw [he] at h
          · exact absurd h (by simp)
          · cases h; rfl
  | null => exact absurd h (by simp [mkScene])
  | bool b => exact absurd h (by simp [mkScene])
  | num l => exact absurd h (by simp [mkScene])
  | str l => exact absurd h (by simp [mkScene])
  | arr l => exact absurd h (by simp [mkScene])

/-- The scene builder numbers its output contiguously from the start index and
keeps one scene per input element. -/
theorem buildScenes_spec (g : List PyStr) :
    ∀ (xs : List JValue) (i : Nat) (l : List SceneAnalysis),
      buildScenes g i xs = some l →
      l.map SceneAnalysis.scene_number = List.range' i l.length ∧
      l.length = xs.length := by
  intro xs
  induction xs with
  | nil =>
    intro i l h
    simp only [buildScenes] at h
    cases h
    simp [List.range']
  | cons v vs ih =>
    intro i l h
    simp only [buildScenes] at h
    cases hm : mkScene i v g <;> rw [hm] at h
    · exact absurd h (by simp)
    · cases hb : buildScenes g (i + 1) vs <;> rw [hb] at h
      · exact absurd h (by simp)
      · cases h
        obtain ⟨h1, h2⟩ := ih (i + 1) _ hb
        constructor
        · simp only [List.map_cons, List.length_cons, List.range'_succ]
          rw [mkScene_number i v g _ hm, h1]
        · simp [h2]

/-- Strings that avoid a separator can be cancelled around it. -/
theorem sep_append_cancel (sep : Char) :
    ∀ (x1 x2 y1 y2 : PyStr), sep ∉ x1 → sep ∉ x2 →
      x1 ++ sep :: y1 = x2 ++ sep :: y2 → x1 = x2 ∧ y1 = y2 := by
  intro x1
  induction x1 with
  | nil =>
    intro x2 y1 y2 h1 h2 h
    cases x2 with
    | nil => simpa using h
    | cons b bs =>
      simp only [List.nil_append, List.cons_append, List.cons.injEq] at h
      rcases h with ⟨hb, -⟩
      subst hb
      exact absurd (List.mem_cons_self _ _) h2
  | cons a as ih =>
    intro x2 y1 y2 h1 h2 h
    cases x2 with
    | nil =>
      simp only [List.cons_append, List.nil_append, List.cons.injEq] at h
      rcases h with ⟨hb, -⟩
      subst hb
      exact absurd (List.mem_cons_self _ _) h1
    | cons b bs =>
      simp only [List.cons_append, List.cons.injEq] at h
      rcases h with ⟨rfl, htl⟩
      have h1x : sep ∉ as := fun hm => h1 (List.mem_cons_of_mem _ hm)
      have h2x : sep ∉ bs := fun hm => h2 (List.mem_cons_of_mem _ hm)
      obtain ⟨he, hy⟩ := ih bs y1 y2 h1x h2x htl
      exact ⟨by rw [he], hy⟩

/-- Characters of a comma-join come from the separator or from an entry. -/
theorem mem_joinComma (c : Char) (g : List PyStr) (h : c ∈ joinComma g) :
    c = ',' ∨ ∃ x ∈ g, c ∈ x := by
  induction g with
  | nil => simp [joinComma] at h
  | cons x xs ih =>
    cases xs with
    | nil =>
      simp only [joinComma] at h
      exact Or.inr ⟨x, by simp, h⟩
    | cons y ys =>
      simp only [joinComma, List.mem_append, List.mem_cons] at h
      rcases h with hx | hc | hj
      · exact Or.inr ⟨x, by simp, hx⟩
      · exact Or.inl hc
      · rcases ih hj with hcm | ⟨z, hz, hcz⟩
        · exact Or.inl hcm
        · exact Or.inr ⟨z, List.mem_cons_of_mem _ hz, hcz⟩

/-- A comma-join of a non-empty list of non-empty entries is non-empty. -/
theorem joinComma_ne_nil (g : List PyStr) (hne : g ≠ [])
    (h : ∀ x ∈ g, x ≠ []) : joinComma g ≠ [] := by
  cases g with
  | nil => exact absurd rfl hne
  | cons x xs =>
    cases xs with
    | nil => exact h x (by simp)
    | cons y ys =>
      simp only [joinComma]
      cases x with
      | nil => exact List.cons_ne_nil _ _
      | cons a as => rw [List.cons_append]; exact List.cons_ne_nil _ _

/-- The comma-join is injective on lists of non-empty comma-free entries. -/
theorem joinComma_inj :
    ∀ (g1 g2 : List PyStr),
      (∀ x ∈ g1, x ≠ [] ∧ ',' ∉ x) → (∀ x ∈ g2, x ≠ [] ∧ ',' ∉ x) →
      joinComma g1 = joinComma g2 → g1 = g2 := by
  intro g1
  induction g1 with
  | nil =>
    intro g2 h1 h2 h
    cases g2 with
    | nil => rfl
    | cons y ys =>
      exact absurd h.symm
        (joinComma_ne_nil (y :: ys) (by simp) (fun x hx => (h2 x hx).1))
  | cons x xs ih =>
    intro g2 h1 h2 h
    cases g2 with
    | nil =>
      exact absurd h
        (joinComma_ne_nil (x :: xs) (by simp) (fun z hz => (h1 z hz).1))
    | cons y ys =>
      cases xs with
      | nil =>
        cases ys with
        | nil => simp only [joinComma] at h; rw [h]
        | cons z zs =>
          simp only [joinComma] at h
          have hmem : ',' ∈ x := by rw [h]; simp
          exact absurd hmem (h1 x (by simp)).2
      | cons w ws =>
        cases ys with
        | nil =>
          simp only [joinComma] at h
          have hmem : ',' ∈ y := by rw [← h]; simp
          exact absurd hmem (h2 y (by simp)).2
        | cons z zs =>
          simp only [joinComma] at h
          obtain ⟨hxy, htl⟩ := sep_append_cancel ',' x y
            (joinComma (w :: ws)) (joinComma (z :: zs))
            (h1 x (by simp)).2 (h2 y (by simp)).2 h
          have hrec := ih (z :: zs)
            (fun a ha => h1 a (List.mem_cons_of_mem _ ha))
            (fun a ha => h2 a (List.mem_cons_of_mem _ ha)) htl
          rw [hxy, hrec]

/-- On colon-free prompts and well-formed entries the fingerprint string
determines the three request fields. -/
theorem fingerprint_str_inj (p1 p2 : PyStr) (g1 g2 a1 a2 : List PyStr)
    (hp1 : ':' ∉ p1) (hp2 : ':' ∉ p2)
    (hg1 : ∀ x ∈ g1, x ≠ [] ∧ ':' ∉ x ∧ ',' ∉ x)
    (hg2 : ∀ x ∈ g2, x ≠ [] ∧ ':' ∉ x ∧ ',' ∉ x)
    (ha1 : ∀ x ∈ a1, x ≠ [] ∧ ':' ∉ x ∧ ',' ∉ x)
    (ha2 : ∀ x ∈ a2, x ≠ [] ∧ ':' ∉ x ∧ ',' ∉ x)
    (h : fingerprint_str p1 g1 a1 = fingerprint_str p2 g2 a2) :
    p1 = p2 ∧ g1 = g2 ∧ a1 = a2 := by
  have hcolon : ∀ (g : List PyStr), (∀ x ∈ g, ':' ∉ x) → ':' ∉ joinComma g := by
    intro g hg hm
    rcases mem_joinComma ':' g hm with hcm | ⟨x, hx, hcx⟩
    · exact absurd hcm (by decide)
    · exact hg x hx hcx
  unfold fingerprint_str at h
  obtain ⟨hp, htail⟩ := sep_append_cancel ':' p1 p2 _ _ hp1 hp2 h
  obtain ⟨hgj, haj⟩ := sep_append_cancel ':' (joinComma g1) (joinComma g2) _ _
    (hcolon g1 (fun x hx => (hg1 x hx).2.1))
    (hcolon g2 (fun x hx => (hg2 x hx).2.1)) htail
  refine ⟨hp, ?_, ?_⟩
  · exact joinComma_inj g1 g2 (fun x hx => ⟨(hg1 x hx).1, (hg1 x hx).2.2⟩)
      (fun x hx => ⟨(hg2 x hx).1, (hg2 x hx).2.2⟩) hgj
  · exact joinComma_inj a1 a2 (fun x hx => ⟨(ha1 x hx).1, (ha1 x hx).2.2⟩)
      (fun x hx => ⟨(ha2 x hx).1, (ha2 x hx).2.2⟩) haj

/-- C1: the pipeline entry point is claimed total - for every AnalysisRequest
the caller gets a fully formed AnalysisResult and never an error. On the code,
the handler evaluates request.top_artists (a field AnalysisRequest does not
declare, AttributeError) and would then call analyze_prompt with four
positional arguments against three parameters (TypeError), so every request,
whatever the provider, hash, clock or cache state, is answered with HTTP 500
instead of a result. -/
theorem endpoint_returns_500_for_every_request (hf : PyStr → Except PyErr PyStr)
    (ph : PyStr → Int) (now : Int) (collection : Option Collection)
    (req : AnalysisRequest) :
    analyze_story_endpoint hf ph now collection req =
      EndpointResult.httpError 500 := rfl

/-- C2: for every prompt with whitespace-split word count w and every threshold
t, the selected mode is STORY exactly when w is at least t (so w = t selects
STORY), and DIRECT otherwise. -/
theorem mode_selection_iff (p : PyStr) (t : Int) :
    (analyze_mode p t = AnalysisMode.STORY ↔ (wordCount p : Int) ≥ t) ∧
    (analyze_mode p t = AnalysisMode.DIRECT ↔ ¬ (wordCount p : Int) ≥ t) := by
  unfold analyze_mode
  by_cases h : (wordCount p : Int) ≥ t <;> simp [h]

/-- C3 counterexample: changing selectedGenres does not always change the
fingerprint. The genre lists ["b", "c"] and ["b,c"] differ, yet produce the
same fingerprint string, hence the same fingerprint for whatever hash the
process applies to it. -/
theorem fingerprint_collision_cex :
    fingerprint_str ("a".data) [("b".data), ("c".data)] [] =
      fingerprint_str ("a".data) [("b,c".data)] [] ∧
    ([("b".data), ("c".data)] : List PyStr) ≠ [("b,c".data)] := by decide

/-- C3 amended: the fingerprint is a function of exactly prompt, selectedGenres
and topArtists - requests agreeing on the three fields always collide - and
when the prompt is colon-free and every genre and artist entry is non-empty,
colon-free and comma-free, distinct triples give distinct fingerprint strings;
without those restrictions distinct triples may collide. -/
theorem fingerprint_amended (h : PyStr → Int) (p1 p2 : PyStr)
    (g1 g2 a1 a2 : List PyStr)
    (hp1 : colonFreeB p1 = true) (hp2 : colonFreeB p2 = true)
    (hg1 : keyEntryOkB g1 = true) (hg2 : keyEntryOkB g2 = true)
    (ha1 : keyEntryOkB a1 = true) (ha2 : keyEntryOkB a2 = true) :
    (∀ q b d q2 b2 d2, fingerprint_str q b d = fingerprint_str q2 b2 d2 →
      fingerprint h q b d = fingerprint h q2 b2 d2) ∧
    (fingerprint_str p1 g1 a1 = fingerprint_str p2 g2 a2 →
      p1 = p2 ∧ g1 = g2 ∧ a1 = a2) := by
  refine ⟨fun q b d q2 b2 d2 hq => ?_, fun heq => ?_⟩
  · unfold fingerprint
    rw [hq]
  · exact fingerprint_str_inj p1 p2 g1 g2 a1 a2 (colonFree_spec _ hp1)
      (colonFree_spec _ hp2) (keyEntryOk_spec _ hg1) (keyEntryOk_spec _ hg2)
      (keyEntryOk_spec _ ha1) (keyEntryOk_spec _ ha2) heq

/-- Witness for fingerprint_amended at concrete colon-free inputs. -/
theorem fingerprint_amended_witness :
    (∀ q b d q2 b2 d2, fingerprint_str q b d = fingerprint_str q2 b2 d2 →
      fingerprint (fun _ => 0) q b d = fingerprint (fun _ => 0) q2 b2 d2) ∧
    (fingerprint_str ("ab".data) [("rock".data)] [("x".data)] =
        fingerprint_str ("ab".data) [("rock".data)] [("x".data)] →
      ("ab".data) = ("ab".data) ∧
        ([("rock".data)] : List PyStr) = [("rock".data)] ∧
        ([("x".data)] : List PyStr) = [("x".data)]) :=
  fingerprint_amended (fun _ => 0) ("ab".data) ("ab".data) [("rock".data)]
    [("rock".data)] [("x".data)] [("x".data)] (by decide) (by decide)
    (by decide) (by decide) (by decide) (by decide)

/-- C4: for every input text and genre selection, story parsing returns scene
numbers that are exactly 1..k for k the number of returned scenes, and never
more than the configured maximum of scenes; this covers both the successfully
parsed path (at most max_scenes elements taken in order) and the fallback. -/
theorem story_scene_numbering_bound (resp : PyStr) (g : List PyStr) :
    (parse_story_response resp g).map SceneAnalysis.scene_number =
      List.range' 1 (parse_story_response resp g).length ∧
    (parse_story_response resp g).length ≤ max_scenes := by
  unfold parse_story_response
  cases hc : storyParseCore resp g with
  | none =>
    exact ⟨rfl, (by decide : (3 : Nat) ≤ 5)⟩
  | some l =>
    have hb2 : ∃ xs : List JValue, buildScenes g 1 (xs.take max_scenes) = some l := by
      simp only [storyParseCore] at hc
      split at hc
      · exact absurd hc (by simp)
      · split at hc
        · exact absurd hc (by simp)
        · simp only [scenesOfData] at hc
          split at hc
          · split at hc
            · split at hc
              · split at hc
                · exact absurd hc (by simp)
                · rename_i l0 heqB hne
                  cases hc
                  exact ⟨_, heqB⟩
              · exact absurd hc (by simp)
            · exact absurd hc (by simp)
            · exact absurd hc (by simp)
          · exact absurd hc (by simp)
    obtain ⟨xs, hb⟩ := hb2
    obtain ⟨h1, h2⟩ := buildScenes_spec g _ 1 l hb
    exact ⟨h1, by rw [h2]; exact List.length_take_le _ _⟩

/-- C5: the candidate JSON object is the substring from the first opening brace
to the last closing brace. A well-formed object surrounded by brace-free prose
is recovered exactly and decodes to its value; a text missing either brace
fails both parsers; a candidate that does not decode as JSON fails both
parsers. The failure the contract calls ParseError is the parse core yielding
no result, whereupon the code substitutes the fallback. The failure conjunct
is stated for candidates free of surrogate escapes, the one construct where
the modelled decoder is conservative (Python accepts a lone surrogate escape,
producing a string not representable as Unicode scalar values). -/
theorem parser_extraction_spec
    (pre s post t u c : PyStr) (v : JValue) (g : List PyStr)
    (hpre : braceFreeB pre = true) (hpost : braceFreeB post = true)
    (hhead : s.head? = some lbrace) (hlast : s.getLast? = some rbrace)
    (hv : json_loads s = some v)
    (ht : findChar lbrace t = none ∨ findChar rbrace t = none)
    (hu : extract_candidate u = some c) (_hcs : surrEscFreeB c = true)
    (hc : json_loads c = none) :
    (extract_candidate (pre ++ s ++ post) = some s ∧
      (extract_candidate (pre ++ s ++ post)).bind json_loads = some v) ∧
    (storyParseCore t g = none ∧ directParseCore t g = none) ∧
    (storyParseCore u g = none ∧ directParseCore u g = none) := by
  have hex := extract_embedded pre s post hpre hpost hhead hlast
  have hextnone : extract_candidate t = none := by
    rcases ht with h1 | h1
    · unfold extract_candidate
      rw [h1]
    · have h2 : rfindChar rbrace t = none := by
        unfold rfindChar
        rw [(findChar_eq_none _ _).mpr (by simpa using (findChar_eq_none _ _).mp h1)]
        rfl
      cases hfl : findChar lbrace t <;> simp [extract_candidate, hfl, h2]
  refine ⟨⟨hex, by rw [hex]; simpa using hv⟩, ?_, ?_⟩
  · exact ⟨by simp [storyParseCore, hextnone], by simp [directParseCore, hextnone]⟩
  · exact ⟨by simp [storyParseCore, hu, hc], by simp [directParseCore, hu, hc]⟩

/-- Witness for parser_extraction_spec at concrete texts. -/
theorem parser_extraction_spec_witness :
    (extract_candidate (wPre ++ wObj ++ wPost) = some wObj ∧
      (extract_candidate (wPre ++ wObj ++ wPost)).bind json_loads = some wVal) ∧
    (storyParseCore wNoBrace gRock = none ∧ directParseCore wNoBrace gRock = none) ∧
    (storyParseCore wBadObj gRock = none ∧ directParseCore wBadObj gRock = none) :=
  parser_extraction_spec wPre wObj wPost wNoBrace wBadObj wBadObj wVal gRock
    rfl rfl rfl rfl rfl (Or.inl rfl) rfl rfl rfl

/-- C6 counterexample: a present mood value outside the known set is not
treated as absent - it makes the whole object parse fail and the fallback be
substituted, while the same scene with the mood field removed parses to a
scene with the defaulted BALANCED mood. -/
theorem field_default_cex :
    parse_story_response textUnknownMood gRock = fallback_story_scenes [] gRock ∧
    storyParseCore textUnknownMood gRock = none ∧
    storyParseCore textMoodAbsent gRock =
      some [⟨1, ("x".data), MoodType.BALANCED, [("rock".data)], ("medium".data)⟩] := by
  decide

/-- C6 amended: a missing field is defaulted (description to (Scene N), mood to
BALANCED, genres to the first three selected genres, energy to (medium);
direct mode analogously), but a field present with a value outside the
expected shape - here a mood string not in the known set - aborts the whole
parse and the fallback result is substituted. -/
theorem field_default_amended (g : List PyStr) :
    storyParseCore textEmptyScene g =
      some [⟨1, ("Scene 1".data), MoodType.BALANCED, g.take 3, ("medium".data)⟩] ∧
    directParseCore textEmptyObj g =
      some ⟨MoodType.BALANCED, g, [], ("Music playlist".data)⟩ ∧
    storyParseCore textUnknownMood g = none :=
  ⟨rfl, rfl, rfl⟩

/-- C7 counterexample: with a five-word prompt and threshold 30 the mode is
DIRECT and an empty provider text makes the parse fail, but the substituted
fallback is computed from an empty prompt, so its theme is not the first 50
characters of the original prompt. -/
theorem scenario_a_cex :
    wordCount promptFive = 5 ∧
    analyze_mode promptFive 30 = AnalysisMode.DIRECT ∧
    parse_direct_response [] gRock = fallback_direct_analysis [] gRock ∧
    (parse_direct_response [] gRock).theme ≠ promptFive.take 50 := by
  decide

/-- C7 amended: for a five-word prompt with threshold 30 the mode is DIRECT;
on empty provider text the direct parse fails and substitutes the fallback
invoked with an empty prompt, whose theme is the fixed string (General
playlist) - not a prefix of the original prompt - and whose keywords list,
the nearest analogue of the searchQuery field the result type does not have,
is non-empty. -/
theorem scenario_a_amended :
    wordCount promptFive = 5 ∧
    analyze_mode promptFive 30 = AnalysisMode.DIRECT ∧
    directParseCore [] gRock = none ∧
    parse_direct_response [] gRock = fallback_direct_analysis [] gRock ∧
    (parse_direct_response [] gRock).theme = ("General playlist".data) ∧
    (parse_direct_response [] gRock).keywords ≠ [] := by
  decide

/-- C8: both fallback generators are total and deterministic; for every prompt
and genre selection, including empty ones, the story fallback yields exactly
three scenes numbered 1, 2, 3 with non-empty description, genres and energy,
and the direct fallback yields a fully populated result with non-empty theme,
genres and keywords. -/
theorem fallback_totality (prompt : PyStr) (g : List PyStr) :
    (fallback_story_scenes prompt g).length = 3 ∧
    (fallback_story_scenes prompt g).map SceneAnalysis.scene_number = [1, 2, 3] ∧
    (∀ s ∈ fallback_story_scenes prompt g,
      s.description ≠ [] ∧ s.suggested_genres ≠ [] ∧ s.energy_level ≠ []) ∧
    (fallback_direct_analysis prompt g).theme ≠ [] ∧
    (fallback_direct_analysis prompt g).extracted_genres ≠ [] ∧
    (fallback_direct_analysis prompt g).keywords ≠ [] := by
  refine ⟨rfl, rfl, ?_, ?_, ?_, ?_⟩
  · intro s hs
    simp only [fallback_story_scenes, List.mem_cons, List.not_mem_nil, or_false] at hs
    have hg : (if g.isEmpty = true then [("pop".data)] else g.take 3) ≠ [] ∧
        (if g.isEmpty = true then [("indie".data)] else g.take 3) ≠ [] := by
      cases g with
      | nil => exact ⟨by decide, by decide⟩
      | cons x xs => exact ⟨List.cons_ne_nil x (xs.take 2), List.cons_ne_nil x (xs.take 2)⟩
    rcases hs with rfl | rfl | rfl
    · exact ⟨List.cons_ne_nil _ _, hg.1, List.cons_ne_nil _ _⟩
    · exact ⟨List.cons_ne_nil _ _, hg.1, List.cons_ne_nil _ _⟩
    · exact ⟨List.cons_ne_nil _ _, hg.2, List.cons_ne_nil _ _⟩
  · cases prompt with
    | nil => exact (by decide : ("General playlist".data) ≠ [])
    | cons c cs => exact List.cons_ne_nil c (cs.take 49)
  · cases g with
    | nil => exact (by decide : [("pop".data), ("indie".data)] ≠ [])
    | cons x xs => exact List.cons_ne_nil x xs
  · exact (by decide : [("music".data), ("playlist".data)] ≠ [])

/-- C9: the cache is best-effort - with no connection established or a store
operation erroring, get returns absent and put writes nothing. (The further
clause of the claim, that the orchestrator still returns a result, fails on
the code for every request; see the C1 theorem.) -/
theorem cache_best_effort (phash : PyStr) (d : CacheDoc) (c : Collection)
    (e1 e2 : OpErr) (hf : c.find_one phash = Except.error e1)
    (hu : c.update_one phash d = Except.error e2) :
    get_cached_analysis none phash = none ∧
    cache_analysis none phash d = none ∧
    get_cached_analysis (some c) phash = none ∧
    cache_analysis (some c) phash d = none := by
  refine ⟨rfl, rfl, ?_, ?_⟩
  · simp [get_cached_analysis, hf]
  · simp [cache_analysis, hu]

/-- Witness for cache_best_effort with a store refusing every operation. -/
theorem cache_best_effort_witness :
    get_cached_analysis none ("k".data) = none ∧
    cache_analysis none ("k".data) docW = none ∧
    get_cached_analysis (some collDown) ("k".data) = none ∧
    cache_analysis (some collDown) ("k".data) docW = none :=
  cache_best_effort ("k".data) docW collDown OpErr.opFailed OpErr.opFailed rfl rfl

/-- C10: when the provider omits a scene's genre list, the parsed scene's
suggested genres are exactly the first three selected genres (hence at most
three); and every story fallback scene carries the first three selected
genres, or a fixed single-genre default when none were supplied. -/
theorem genre_defaulting (i : Nat) (fields : List (PyStr × JValue))
    (g : List PyStr) (s : SceneAnalysis) (p : PyStr)
    (hno : objGet fields ("genres".data) = none)
    (hs : mkScene i (JValue.obj fields) g = some s) :
    (s.suggested_genres = g.take 3 ∧ s.suggested_genres.length ≤ 3) ∧
    (∀ sc ∈ fallback_story_scenes p g,
      (g ≠ [] ∧ sc.suggested_genres = g.take 3) ∨
      (g = [] ∧ sc.suggested_genres.length = 1)) := by
  constructor
  · simp only [mkScene] at hs
    cases hd : sceneDesc i fields <;> rw [hd] at hs
    · exact absurd hs (by simp)
    · cases hm : sceneMood fields <;> rw [hm] at hs
      · exact absurd hs (by simp)
      · have hgs : sceneGenres g fields = some (g.take 3) := by
          simp [sceneGenres, hno]
        rw [hgs] at hs
        cases he : sceneEnergy fields <;> rw [he] at hs
        · exact absurd hs (by simp)
        · cases hs
          exact ⟨rfl, List.length_take_le _ _⟩
  · intro sc hsc
    simp only [fallback_story_scenes, List.mem_cons, List.not_mem_nil, or_false] at hsc
    cases g with
    | nil =>
      right
      rcases hsc with rfl | rfl | rfl <;> exact ⟨rfl, rfl⟩
    | cons x xs =>
      left
      rcases hsc with rfl | rfl | rfl <;> exact ⟨List.cons_ne_nil _ _, rfl⟩

/-- Witness for genre_defaulting: a description-only scene object at index 2
with two selected genres. -/
theorem genre_defaulting_witness :
    (sceneW.suggested_genres = gTwo.take 3 ∧ sceneW.suggested_genres.length ≤ 3) ∧
    (∀ sc ∈ fallback_story_scenes promptFive gTwo,
      (gTwo ≠ [] ∧ sc.suggested_genres = gTwo.take 3) ∨
      (gTwo = [] ∧ sc.suggested_genres.length = 1)) :=
  genre_defaulting 2 fieldsW gTwo sceneW promptFive rfl rfl
